import Mathlib

/-!
Verification of the gitmodel workspace engine (`gitmodel/workspace.py`) and of
the tree utilities of `gitmodel.utils.git` against its specification.

The object store (pygit2 / libgit2) is the external collaborator: objects are
content addressed, so an ObjectId is modelled as the object value itself
(structural equality of values is exactly "same content, same id").  The only
mutable state of the store is its reference table, kept as an association list
from reference names to targets.  Python-level failures (raised exceptions,
including the `AttributeError`s produced by buggy attribute accesses) are
modelled with `Except PyError`.
-/

namespace GitModel

/-- Python-level errors raised by the workspace code: the gitmodel exception
classes plus `AttributeError`, which several code paths in `workspace.py`
actually raise (`time.sleep`, `self.path`, `self.create_reference`,
`None.oid`, `None.tree`). The string argument of `attributeError` is the
attribute whose lookup failed. -/
inductive PyError where
  | repositoryError (msg : String)
  | repositoryNotFound (msg : String)
  | lockWaitTimeoutExceeded (msg : String)
  | valueError (msg : String)
  | attributeError (attr : String)
deriving DecidableEq

/-- Entry kind tag of a git tree entry (`GIT_FILEMODE_BLOB` / `GIT_FILEMODE_TREE`). -/
inductive Kind where
  | blob
  | tree
deriving DecidableEq

/-- A blob or tree of the content-addressed store.  Because the store is
content addressed, the value doubles as its own ObjectId: equal content is
equal identity.  A tree is a list of `(name, object, kind)` entries. -/
inductive GTree where
  | blob : String → GTree
  | node : List (String × GTree × Kind) → GTree

/-- One tree entry: `(name, ObjectId, kind)` as in the spec's data model. -/
abbrev Entry := String × GTree × Kind

/-- Blob payload of an object (empty for trees). -/
def GTree.content : GTree → String
  | .blob c => c
  | .node _ => ""

/-- Entries of an object (empty for blobs). -/
def GTree.entries : GTree → List Entry
  | .blob _ => []
  | .node es => es

/-- Python truthiness of a pygit2 object held in `Workspace.index`: pygit2
trees and blobs define `__len__`, so an empty tree (or empty blob) is falsy. -/
def GTree.truthy : GTree → Bool
  | .blob c => !(c.isEmpty)
  | .node es => !(es.isEmpty)

mutual

/-- Flatten a tree to its `(path, blob content)` leaves, prefixing every
name with `p`.  This is the canonical reading of a tree's contents used to
model the store's tree-to-tree diff primitive. -/
def GTree.flatten : GTree → String → List (String × String)
  | .blob c, p => [(p, c)]
  | .node es, p => flattenEntries es p

/-- Flatten each entry of an entry list: a blob entry contributes its path and
content, a tree entry contributes the leaves of its subtree. -/
def flattenEntries : List Entry → String → List (String × String)
  | [], _ => []
  | (n, t, k) :: rest, p =>
      (match k with
       | .blob => [(p ++ n, t.content)]
       | .tree => t.flatten (p ++ n ++ "/")) ++ flattenEntries rest p

end

/-- The change list of the store's diff primitive `tree_a.diff(tree_b)`
(an external collaborator, see spec section 1): the paths whose
`(path, content)` leaf occurs in `a` but not in `b` (removed or modified),
followed by the paths present in `b` but absent from `a` (added). -/
def treeChanges (a b : GTree) : List String :=
  let fa := a.flatten ""
  let fb := b.flatten ""
  (fa.filter (fun p => !(fb.contains p))).map Prod.fst
    ++ (fb.filter (fun p => !(fa.any (fun q => q.1 == p.1)))).map Prod.fst

/-- A commit signature: `(name, email, unix time, utc offset in minutes)`. -/
structure Sig where
  name : String
  email : String
  time : Nat
  offset : Int
deriving DecidableEq

/-- A commit object: tree, parent commits, author, committer, message.
Content addressed like every store object, so the value is its own id. -/
inductive Commit where
  | mk (tree : GTree) (parents : List Commit) (authorSig committerSig : Sig)
      (message : String)

/-- Tree snapshot of a commit. -/
def Commit.tree : Commit → GTree
  | .mk t _ _ _ _ => t

/-- Parent commits of a commit. -/
def Commit.parents : Commit → List Commit
  | .mk _ ps _ _ _ => ps

/-- Author signature of a commit. -/
def Commit.authorSig : Commit → Sig
  | .mk _ _ a _ _ => a

/-- Committer signature of a commit. -/
def Commit.committerSig : Commit → Sig
  | .mk _ _ _ c _ => c

/-- Message of a commit. -/
def Commit.message : Commit → String
  | .mk _ _ _ _ m => m

/-- Target of a reference: branch heads point at commits, lock references
point at blobs. -/
inductive RefTarget where
  | toCommit : Commit → RefTarget
  | toBlob : String → RefTarget

/-- Reference table lookup (`repo.lookup_reference`): `none` models the
`KeyError` of a missing reference. -/
def lookupRef : List (String × RefTarget) → String → Option RefTarget
  | [], _ => none
  | (m, t) :: rest, n => if m = n then some t else lookupRef rest n

/-- Write a reference: update it in place if present, append it otherwise
(`repo.create_commit` given a reference name updates or creates it). -/
def setRef : List (String × RefTarget) → String → RefTarget → List (String × RefTarget)
  | [], n, t => [(n, t)]
  | (m, u) :: rest, n, t =>
      if m = n then (n, t) :: rest else (m, u) :: setRef rest n t

/-- The configuration surface consumed by the workspace (`gitmodel.conf`):
default branch name, default author identity, default timezone offset, lock
poll interval and lock wait timeout. -/
structure Config where
  DEFAULT_BRANCH : String
  DEFAULT_GIT_USER : String × String
  DEFAULT_TZ_OFFSET : Option Int
  LOCK_WAIT_TIMEOUT : Nat
  LOCK_WAIT_INTERVAL : Nat

/-- The in-memory state of a `Workspace` (`workspace.py`): the store's
reference table (`self.repo`'s references, the only mutable store state), the
tracked branch name `self.head`, the working tree `self.index` and the
configuration `self.config`. -/
structure Workspace where
  refs : List (String × RefTarget)
  head : String
  index : GTree
  config : Config

/-- The `Branch` helper class: quick access to the commit a reference points
to and to that commit's tree. -/
structure BranchView where
  commit : Commit
  tree : GTree

/-- The `Workspace.branch` property: `Branch(self.repo, self.head)`, with a
`KeyError` (missing reference) mapped to `None`.  A reference that points at
a non-commit raises `AttributeError` inside `Branch.__init__` when
`self.commit.tree` is read, and that exception is not caught. -/
def Workspace.branch (ws : Workspace) : Except PyError (Option BranchView) :=
  match lookupRef ws.refs ws.head with
  | none => .ok none
  | some (.toCommit c) => .ok (some ⟨c, c.tree⟩)
  | some (.toBlob _) => .error (.attributeError "tree")

/-- `Workspace.diff`: diff of the current branch's tree (or of a fresh empty
tree when the branch does not exist) against the index.  The second component
is the workspace after the call; the method assigns no attribute, so it is
returned unchanged. -/
def Workspace.diff (ws : Workspace) : Except PyError (List String × Workspace) :=
  match ws.branch with
  | .error e => .error e
  | .ok (some bv) => .ok (treeChanges bv.tree ws.index, ws)
  | .ok none => .ok (treeChanges (GTree.node []) ws.index, ws)

/-- `Workspace.has_changes`: `len(self.diff().changes) > 0`. -/
def Workspace.has_changes (ws : Workspace) : Except PyError Bool :=
  match ws.diff with
  | .error e => .error e
  | .ok d => .ok (decide (0 < d.1.length))

/-- `Workspace.update_index(ref)`: refuse when the index is truthy and there
are pending changes; fail when `ref` does not resolve; otherwise set
`self.head = ref` and `self.index = self.branch.tree` (an absent branch at
that point would raise `AttributeError` on `None.tree`). -/
def Workspace.update_index (ws : Workspace) (ref : String) : Except PyError Workspace :=
  match (if ws.index.truthy then ws.has_changes else Except.ok false) with
  | .error e => .error e
  | .ok true => .error (.repositoryError "Cannot checkout a different branch with pending changes")
  | .ok false =>
      match lookupRef ws.refs ref with
      | none => .error (.repositoryError ("Reference not found: " ++ ref))
      | some _ =>
          match Workspace.branch { ws with head := ref } with
          | .error e => .error e
          | .ok none => .error (.attributeError "tree")
          | .ok (some bv) => .ok { ws with head := ref, index := bv.tree }

/-- `Workspace.set_branch(name)`: resolve `refs/heads/{name}` (failing with
the reference-not-found `RepositoryError` when absent), then delegate to
`update_index`. -/
def Workspace.set_branch (ws : Workspace) (name : String) : Except PyError Workspace :=
  match lookupRef ws.refs ("refs/heads/" ++ name) with
  | none => .error (.repositoryError ("Reference not found: refs/heads/" ++ name))
  | some _ => ws.update_index ("refs/heads/" ++ name)

/-- Modelled from the spec: `make_signature(name, email, timestamp, default_offset)`
of `gitmodel.utils.git`, whose source file is not in the repository snapshot
(only `workspace.py` and the tests are).  Per spec section 4.3 the offset is
`default_offset` when supplied and otherwise the local timezone's offset at
`timestamp`; the local clock and timezone database are passed in explicitly
as `timestamp` and `localOffset`. -/
def make_signature (name email : String) (timestamp : Nat) (localOffset : Int)
    (default_offset : Option Int) : Sig :=
  { name := name, email := email, time := timestamp,
    offset := default_offset.getD localOffset }

/-- The store primitive `repo.create_commit(ref, author, committer, message,
tree, parents)`: creates the commit object and points the named reference at
it (creating or updating the reference). -/
def repoCreateCommit (refs : List (String × RefTarget)) (ref : String)
    (author committer : Sig) (message : String) (tree : GTree)
    (parents : List Commit) : Commit × List (String × RefTarget) :=
  let c := Commit.mk tree parents author committer message
  (c, setRef refs ref (.toCommit c))

/-- `Workspace.create_commit(ref, tree, message, author, committer, parents)`:
author defaults to `config.DEFAULT_GIT_USER`, committer defaults to the
(already defaulted) author, both are turned into signatures with
`make_signature` and `DEFAULT_TZ_OFFSET`; when `parents` is `None` the parent
list is resolved from `ref` (empty when the reference is absent).  `now` and
`localOffset` supply the wall clock and local timezone consumed by
`make_signature`. -/
def Workspace.create_commit (ws : Workspace) (ref : String) (tree : GTree)
    (message : String) (author committer : Option (String × String))
    (parents : Option (List Commit)) (now : Nat) (localOffset : Int) :
    Except PyError (Commit × Workspace) :=
  let authorId := match author with
    | none => ws.config.DEFAULT_GIT_USER
    | some a => a
  let committerId := match committer with
    | none => authorId
    | some c => c
  let authorSig := make_signature authorId.1 authorId.2 now localOffset
    ws.config.DEFAULT_TZ_OFFSET
  let committerSig := make_signature committerId.1 committerId.2 now localOffset
    ws.config.DEFAULT_TZ_OFFSET
  match parents with
  | some ps =>
      let r := repoCreateCommit ws.refs ref authorSig committerSig message tree ps
      .ok (r.1, { ws with refs := r.2 })
  | none =>
      match lookupRef ws.refs ref with
      | none =>
          let r := repoCreateCommit ws.refs ref authorSig committerSig message tree []
          .ok (r.1, { ws with refs := r.2 })
      | some (.toCommit p) =>
          let r := repoCreateCommit ws.refs ref authorSig committerSig message tree [p]
          .ok (r.1, { ws with refs := r.2 })
      | some (.toBlob _) =>
          .error (.valueError "parent reference does not point to a commit")

/-- `Workspace.commit(message, author, committer)`: `None` when there are no
changes, otherwise a commit of the index onto `self.head`, with parents
`[self.branch.commit.oid]` when the branch exists and `[]` otherwise. -/
def Workspace.commit (ws : Workspace) (message : String)
    (author committer : Option (String × String)) (now : Nat)
    (localOffset : Int) : Except PyError (Option Commit × Workspace) :=
  match ws.has_changes with
  | .error e => .error e
  | .ok false => .ok (none, ws)
  | .ok true =>
      match ws.branch with
      | .error e => .error e
      | .ok b =>
          let parents := match b with
            | some bv => [bv.commit]
            | none => []
          match ws.create_commit ws.head ws.index message author committer
              (some parents) now localOffset with
          | .error e => .error e
          | .ok r => .ok (some r.1, r.2)

mutual

/-- The store primitive `repo.walk(oid, sort)`: the commits reachable from a
starting commit through parent links. -/
def Commit.selfAndAncestors : Commit → List Commit
  | .mk t ps a c m => .mk t ps a c m :: ancestorsList ps

/-- Reachable commits of every commit in a list, concatenated. -/
def ancestorsList : List Commit → List Commit
  | [] => []
  | c :: rest => c.selfAndAncestors ++ ancestorsList rest

end

/-- `Workspace.walk()`: iterate `self.repo.walk(self.branch.oid, sort)`.  When
the branch property returns `None`, reading `.oid` on it raises
`AttributeError`. -/
def Workspace.walk (ws : Workspace) : Except PyError (List Commit) :=
  match ws.branch with
  | .error e => .error e
  | .ok none => .error (.attributeError "oid")
  | .ok (some bv) => .ok bv.commit.selfAndAncestors

/-- `Workspace.locked(id)`: whether the reference `refs/locks/{id}` exists. -/
def Workspace.locked (ws : Workspace) (id : String) : Bool :=
  (lookupRef ws.refs ("refs/locks/" ++ id)).isSome

/-- `Workspace.lock(id)` up to its first exception, with `elapsed` the value
of `time() - start_time` at the first loop test.  Every path raises an
`AttributeError` before the lock reference can be created or the body can
run: while contended, the timeout branch evaluates `self.path` (the class
defines no `path` attribute) and the retry branch evaluates `time.sleep`
(`time` is the function imported by `from time import time`, which has no
`sleep` attribute); when free, acquisition evaluates `self.create_reference`
(the class defines no `create_reference` method, only `self.repo` has one). -/
def Workspace.lock (ws : Workspace) (id : String) (elapsed : Nat) :
    Except PyError Workspace :=
  if ws.locked id then
    if decide (ws.config.LOCK_WAIT_TIMEOUT < elapsed) then
      .error (.attributeError "path")
    else
      .error (.attributeError "sleep")
  else
    .error (.attributeError "create_reference")

/-- The store's object database, as the list of objects written so far.
Content addressing makes a write return the object itself as its id. -/
abbrev ODB := List GTree

/-- The store primitive `TreeBuilder().write()`: record the object and return
its (content-addressed) id. -/
def ODB.write (s : ODB) (t : GTree) : GTree × ODB := (t, s ++ [t])

/-- Insert `(n, t, k)` into a name-sorted entry list, replacing an entry that
already has name `n` (git trees keep entries unique and sorted by name, and
`TreeBuilder.insert` replaces by name). -/
def insertEntry : List Entry → String → GTree → Kind → List Entry
  | [], n, t, k => [(n, t, k)]
  | (m, u, j) :: rest, n, t, k =>
      if n = m then (n, t, k) :: rest
      else if n < m then (n, t, k) :: (m, u, j) :: rest
      else (m, u, j) :: insertEntry rest n t k

/-- Split a character list at `/` separators, `cur` being the name read so
far. -/
def splitSlashes : List Char → String → List String
  | [], cur => [cur]
  | ch :: rest, cur =>
      if ch = '/' then cur :: splitSlashes rest "" else splitSlashes rest (cur.push ch)

/-- Split a slash-separated path into its directory names, dropping leading
and trailing separators: the spec's reading of `build_path`'s `path`
argument. -/
def pathSegments (path : String) : List String :=
  (splitSlashes path.data "").filter (fun s => !(s.isEmpty))

/-- Entries of the subdirectory named `d` of an optional base tree; a missing
base or a missing (or non-tree) entry is treated as an empty directory. -/
def subdirOf (base : Option GTree) (d : String) : Option GTree :=
  match base with
  | none => none
  | some t =>
      match t.entries.find? (fun e => e.1 == d) with
      | some (_, u, _) => some u
      | none => none

/-- Entries of an optional base tree (empty when absent). -/
def baseEntries (base : Option GTree) : List Entry :=
  match base with
  | none => []
  | some t => t.entries

/-- Recursive core of `build_path`: rebuild the directory chain `segs` above
the leaf `entries`, copying every untouched entry of the corresponding base
directory and writing each rebuilt tree to the store, deepest first. -/
def buildPathGo (odb : ODB) (base : Option GTree) :
    List String → List Entry → GTree × ODB
  | [], entries =>
      odb.write (.node (entries.foldl
        (fun acc e => insertEntry acc e.1 e.2.1 e.2.2) (baseEntries base)))
  | d :: rest, entries =>
      let r := buildPathGo odb (subdirOf base d) rest entries
      r.2.write (.node (insertEntry (baseEntries base) d r.1 .tree))

/-- Modelled from the spec: `build_path(repo, path, entries, root)` of
`gitmodel.utils.git`, whose source file is not in the repository snapshot
(only `workspace.py` and the tests are).  Per spec section 4.1: strip the
path separators, then rebuild bottom-up, placing `entries` as direct children
of the deepest directory (on top of that directory's surviving base entries),
and at each level above copy the base directory's entries except the one
being replaced by the just-built child; a missing base or missing segment is
an empty directory.  Returns the new root's id and the store after the
writes. -/
def build_path (odb : ODB) (path : String) (entries : List Entry)
    (base : Option GTree) : GTree × ODB :=
  buildPathGo odb base (pathSegments path) entries

mutual

/-- Rendered lines of an entry list at indentation `ind`: a tree entry as
`name/` followed by its children indented two spaces deeper, a blob entry as
its bare name. -/
def describeEntries : List Entry → String → List String
  | [], _ => []
  | (n, t, k) :: rest, ind =>
      (match k with
       | .tree => (ind ++ n ++ "/") :: describeSub t (ind ++ "  ")
       | .blob => [ind ++ n]) ++ describeEntries rest ind

/-- Rendered lines of an object's children (none for a blob). -/
def describeSub : GTree → String → List String
  | .blob _, _ => []
  | .node es, ind => describeEntries es ind

end

/-- Modelled from the spec: `describe_tree(repo, tree_id)` of
`gitmodel.utils.git`, whose source file is not in the repository snapshot
(only `workspace.py` and the tests are).  Per spec section 4.2: render each
directory's name followed by `/`, a newline and its children indented two
spaces deeper; render files as their bare names; visit children in the
store's (name-sorted) order. -/
def describe_tree (t : GTree) : String :=
  String.intercalate "\n" (describeSub t "")

/-- Parent list that `Workspace.commit` resolves for the new commit:
`[current branch tip]` when the tracked reference exists and points at a
commit, `[]` otherwise. -/
def commitParentsOf (ws : Workspace) : List Commit :=
  match lookupRef ws.refs ws.head with
  | some (.toCommit p) => [p]
  | _ => []

/-- The commit object `Workspace.commit` creates on a dirty workspace, made
explicit: tree is the index, parents are `commitParentsOf`, signatures follow
the author/committer defaulting of `create_commit`. -/
def mkCommitObj (ws : Workspace) (msg : String)
    (a c : Option (String × String)) (now : Nat) (off : Int) : Commit :=
  let authorId := match a with
    | none => ws.config.DEFAULT_GIT_USER
    | some x => x
  let committerId := match c with
    | none => authorId
    | some x => x
  Commit.mk ws.index (commitParentsOf ws)
    (make_signature authorId.1 authorId.2 now off ws.config.DEFAULT_TZ_OFFSET)
    (make_signature committerId.1 committerId.2 now off ws.config.DEFAULT_TZ_OFFSET)
    msg

/-- Committer name recorded by a `Workspace.commit` result, when it produced
a commit. -/
def committerNameOf (r : Except PyError (Option Commit × Workspace)) : Option String :=
  match r with
  | .ok (some c, _) => some c.committerSig.name
  | _ => none

instance {ε α : Type} [DecidableEq ε] [DecidableEq α] : DecidableEq (Except ε α) := fun x y =>
  match x, y with
  | .ok a, .ok b =>
      if h : a = b then .isTrue (by rw [h]) else .isFalse (by simp [h])
  | .ok _, .error _ => .isFalse (by simp)
  | .error _, .ok _ => .isFalse (by simp)
  | .error e, .error f =>
      if h : e = f then .isTrue (by rw [h]) else .isFalse (by simp [h])

/-- A concrete configuration used by the concrete workspaces below. -/
def cfg0 : Config :=
  { DEFAULT_BRANCH := "refs/heads/master"
    DEFAULT_GIT_USER := ("Default", "default@example.com")
    DEFAULT_TZ_OFFSET := none
    LOCK_WAIT_TIMEOUT := 30
    LOCK_WAIT_INTERVAL := 1 }

/-- A concrete signature. -/
def sig0 : Sig := make_signature "Default" "default@example.com" 0 0 none

/-- A concrete one-file tree. -/
def treeA : GTree := .node [("a.txt", .blob "A", .blob)]

/-- A second concrete one-file tree, different from `treeA`. -/
def treeB : GTree := .node [("b.txt", .blob "B", .blob)]

/-- A concrete root commit whose tree is `treeA`. -/
def commitA : Commit := .mk treeA [] sig0 sig0 "initial"

/-- A concrete root commit whose tree is `treeB`. -/
def commitB : Commit := .mk treeB [] sig0 sig0 "second"

/-- A clean workspace: index equals the branch tip's tree. -/
def wsClean : Workspace :=
  { refs := [("refs/heads/master", .toCommit commitA)]
    head := "refs/heads/master"
    index := treeA
    config := cfg0 }

/-- A dirty workspace: the branch tip holds `treeA`, the index `treeB`. -/
def wsDirty : Workspace :=
  { refs := [("refs/heads/master", .toCommit commitA)]
    head := "refs/heads/master"
    index := treeB
    config := cfg0 }

/-- A dirty workspace whose branch reference does not exist yet. -/
def wsNoBranch : Workspace :=
  { refs := []
    head := "refs/heads/master"
    index := treeA
    config := cfg0 }

/-- A workspace on whose store the lock reference `refs/locks/x` exists. -/
def wsLockHeld : Workspace :=
  { refs := [("refs/locks/x", .toBlob "")]
    head := "refs/heads/master"
    index := treeA
    config := cfg0 }

/-- A clean workspace with a second branch `refs/heads/dev` to switch to. -/
def wsTwoBranches : Workspace :=
  { refs := [("refs/heads/master", .toCommit commitA),
             ("refs/heads/dev", .toCommit commitB)]
    head := "refs/heads/master"
    index := treeA
    config := cfg0 }

theorem lookupRef_setRef (refs : List (String × RefTarget)) (n : String) (t : RefTarget) :
    lookupRef (setRef refs n t) n = some t := by
  induction refs with
  | nil => simp [setRef, lookupRef]
  | cons hd rest ih =>
      obtain ⟨m, u⟩ := hd
      by_cases h : m = n
      · simp [setRef, lookupRef, h]
      · simp [setRef, lookupRef, h, ih]

theorem treeChanges_self (t : GTree) : treeChanges t t = [] := by
  unfold treeChanges
  have h1 : (t.flatten "").filter (fun p => !((t.flatten "").contains p)) = [] := by
    rw [List.filter_eq_nil_iff]
    intro p hp
    simp [List.contains, List.elem_eq_mem, hp]
  have h2 : (t.flatten "").filter
      (fun p => !((t.flatten "").any (fun q => q.1 == p.1))) = [] := by
    rw [List.filter_eq_nil_iff]
    intro p hp
    simp only [Bool.not_eq_true', Bool.not_eq_false]
    exact List.any_eq_true.mpr ⟨p, hp, by simp⟩
  simp [h1, h2]

theorem commit_dirty_eq (ws : Workspace) (msg : String)
    (a c : Option (String × String)) (now : Nat) (off : Int)
    (h : ws.has_changes = Except.ok true) :
    ws.commit msg a c now off =
      Except.ok (some (mkCommitObj ws msg a c now off),
        { ws with
            refs := setRef ws.refs ws.head
              (RefTarget.toCommit (mkCommitObj ws msg a c now off)) }) := by
  cases hl : lookupRef ws.refs ws.head with
  | none =>
      simp [Workspace.commit, h, Workspace.branch, hl, Workspace.create_commit,
        repoCreateCommit, mkCommitObj, commitParentsOf]
  | some t =>
      cases t with
      | toCommit p =>
          simp [Workspace.commit, h, Workspace.branch, hl, Workspace.create_commit,
            repoCreateCommit, mkCommitObj, commitParentsOf]
      | toBlob s =>
          simp [Workspace.has_changes, Workspace.diff, Workspace.branch, hl] at h

theorem has_changes_after_advance (ws : Workspace) (cm : Commit)
    (h : cm.tree = ws.index) :
    Workspace.has_changes
      { ws with refs := setRef ws.refs ws.head (RefTarget.toCommit cm) }
      = Except.ok false := by
  simp [Workspace.has_changes, Workspace.diff, Workspace.branch,
    lookupRef_setRef, h, treeChanges_self]

/-- C1: on a workspace with pending changes, `commit` creates a new commit
whose tree is the current index and whose parents are `[current branch tip]`
when the branch reference exists and `[]` otherwise, advances the branch
reference to the new commit, returns it, and afterwards `has_changes` is
false. -/
theorem gm_C1_commit_dirty (ws : Workspace) (msg : String)
    (a c : Option (String × String)) (now : Nat) (off : Int)
    (h : ws.has_changes = Except.ok true) :
    ∃ cm ws', ws.commit msg a c now off = Except.ok (some cm, ws')
      ∧ cm.tree = ws.index
      ∧ cm.parents = commitParentsOf ws
      ∧ ws'.head = ws.head
      ∧ ws'.index = ws.index
      ∧ ws'.refs = setRef ws.refs ws.head (RefTarget.toCommit cm)
      ∧ ws'.has_changes = Except.ok false := by
  refine ⟨mkCommitObj ws msg a c now off, _,
    commit_dirty_eq ws msg a c now off h, rfl, rfl, rfl, rfl, rfl, ?_⟩
  exact has_changes_after_advance ws _ rfl

/-- Witness for C1 at the concrete dirty workspace `wsDirty`. -/
theorem gm_C1_commit_dirty_witness :
    wsDirty.has_changes = Except.ok true ∧
    ∃ cm ws', wsDirty.commit "msg" none none 10 0 = Except.ok (some cm, ws')
      ∧ cm.tree = wsDirty.index
      ∧ cm.parents = commitParentsOf wsDirty
      ∧ ws'.head = wsDirty.head
      ∧ ws'.index = wsDirty.index
      ∧ ws'.refs = setRef wsDirty.refs wsDirty.head (RefTarget.toCommit cm)
      ∧ ws'.has_changes = Except.ok false :=
  ⟨by decide, gm_C1_commit_dirty wsDirty "msg" none none 10 0 (by decide)⟩

/-- C5: on a workspace without pending changes, `commit` returns `None`,
creates no commit and leaves the workspace (index, head and every reference)
unchanged. -/
theorem gm_C5_commit_clean (ws : Workspace) (msg : String)
    (a c : Option (String × String)) (now : Nat) (off : Int)
    (h : ws.has_changes = Except.ok false) :
    ws.commit msg a c now off = Except.ok (none, ws) := by
  simp [Workspace.commit, h]

/-- Witness for C5 at the concrete clean workspace `wsClean`. -/
theorem gm_C5_commit_clean_witness :
    wsClean.has_changes = Except.ok false ∧
    wsClean.commit "msg" none none 10 0 = Except.ok (none, wsClean) :=
  ⟨by decide, gm_C5_commit_clean wsClean "msg" none none 10 0 (by decide)⟩

/-- C8: `diff` is a pure read: it returns the changes between the current
branch's tree (an empty tree when the branch has no commit yet) and the
index, and the workspace it hands back — index, tracked branch name and
reference table included — is the input workspace unchanged. -/
theorem gm_C8_diff_pure (ws : Workspace) :
    ws.diff = ws.branch.map (fun b =>
      (treeChanges (match b with
        | some bv => bv.tree
        | none => GTree.node []) ws.index, ws)) := by
  unfold Workspace.diff
  cases hb : ws.branch with
  | error e => rfl
  | ok b => cases b with
    | none => rfl
    | some bv => rfl

/-- C10: when the current branch reference does not exist, `walk` raises an
`AttributeError` (reading `.oid` on `None`) instead of yielding an empty
sequence of commits. -/
theorem gm_C10_walk_no_branch (ws : Workspace)
    (h : lookupRef ws.refs ws.head = none) :
    ws.walk = Except.error (PyError.attributeError "oid") := by
  simp [Workspace.walk, Workspace.branch, h]

/-- Witness for C10 at the concrete branchless workspace `wsNoBranch`. -/
theorem gm_C10_walk_no_branch_witness :
    lookupRef wsNoBranch.refs wsNoBranch.head = none ∧
    wsNoBranch.walk = Except.error (PyError.attributeError "oid") :=
  ⟨rfl, gm_C10_walk_no_branch wsNoBranch rfl⟩

/-- C3 (code bug): `lock` can never successfully enter a scope: on a free
lock id it raises `AttributeError` while acquiring, because the class defines
no `create_reference` method (the store's method is `self.repo.create_reference`),
so the lock reference is neither created nor ever deleted; the deletion after
`yield` is additionally not guarded by any `finally`. -/
theorem gm_C3_lock_never_entered :
    wsClean.locked "job" = false
    ∧ wsClean.lock "job" 0 = Except.error (PyError.attributeError "create_reference") :=
  ⟨rfl, rfl⟩

/-- C4 (code bug): on a contended lock id, `lock` does not sleep and retry:
the retry branch raises `AttributeError` evaluating `time.sleep` (`time` is
the function imported by `from time import time`), and the timeout branch
raises `AttributeError` evaluating `self.path` while formatting the
`LockWaitTimeoutExceeded` message, so that error is never raised either. -/
theorem gm_C4_lock_contended_crashes :
    wsLockHeld.locked "x" = true
    ∧ wsLockHeld.lock "x" 0 = Except.error (PyError.attributeError "sleep")
    ∧ wsLockHeld.lock "x" 31 = Except.error (PyError.attributeError "path") :=
  ⟨rfl, rfl, rfl⟩

/-- C2 counterexample: on a dirty workspace, `set_branch` to a branch whose
reference does not exist fails with the reference-not-found
`RepositoryError`, not with the pending-changes error the claim names. -/
theorem gm_C2_set_branch_counterexample :
    wsDirty.has_changes = Except.ok true
    ∧ wsDirty.set_branch "missing" =
        Except.error (PyError.repositoryError "Reference not found: refs/heads/missing")
    ∧ ("Reference not found: refs/heads/missing" : String) ≠
        "Cannot checkout a different branch with pending changes" :=
  ⟨by decide, rfl, by decide⟩

/-- C2 amended: on a dirty workspace (with truthy index, as the guard
`if self.index and self.has_changes()` requires), `set_branch` always fails
with a `RepositoryError` — the pending-changes error when the target
reference exists, the reference-not-found error when it does not — and in
either case returns no mutated workspace; on a clean workspace whose target
reference exists and points at a commit, it replaces the index with the new
branch's tree and updates the tracked branch name. -/
theorem gm_C2_set_branch_amended (ws : Workspace) (name : String) :
    (ws.has_changes = Except.ok true → ws.index.truthy = true →
      ws.set_branch name =
        Except.error (match lookupRef ws.refs ("refs/heads/" ++ name) with
          | none => PyError.repositoryError ("Reference not found: refs/heads/" ++ name)
          | some _ => PyError.repositoryError
              "Cannot checkout a different branch with pending changes"))
    ∧ (∀ c, ws.has_changes = Except.ok false →
        lookupRef ws.refs ("refs/heads/" ++ name) = some (RefTarget.toCommit c) →
        ws.set_branch name =
          Except.ok { ws with head := "refs/heads/" ++ name, index := c.tree }) := by
  constructor
  · intro hdirty htruthy
    cases hl : lookupRef ws.refs ("refs/heads/" ++ name) with
    | none => simp [Workspace.set_branch, hl]
    | some t =>
        simp [Workspace.set_branch, hl, Workspace.update_index, htruthy, hdirty]
  · intro c hclean hlook
    cases ht : ws.index.truthy with
    | true =>
        simp [Workspace.set_branch, hlook, Workspace.update_index, ht, hclean,
          Workspace.branch]
    | false =>
        simp [Workspace.set_branch, hlook, Workspace.update_index, ht,
          Workspace.branch]

/-- Witness for the amended C2: the dirty branch at `wsDirty` with a missing
target, and the clean branch switch at `wsTwoBranches`. -/
theorem gm_C2_set_branch_amended_witness :
    (wsDirty.set_branch "missing" =
      Except.error (match lookupRef wsDirty.refs ("refs/heads/" ++ "missing") with
        | none => PyError.repositoryError ("Reference not found: refs/heads/" ++ "missing")
        | some _ => PyError.repositoryError
            "Cannot checkout a different branch with pending changes"))
    ∧ wsTwoBranches.set_branch "dev" =
        Except.ok { wsTwoBranches with head := "refs/heads/" ++ "dev", index := commitB.tree } :=
  ⟨(gm_C2_set_branch_amended wsDirty "missing").1 (by decide) (by decide),
   (gm_C2_set_branch_amended wsTwoBranches "dev").2 commitB (by decide) rfl⟩

/-- C9 counterexample: with a configured default identity `Default` and an
explicit author `Alice`, a dirty-workspace commit with the committer argument
omitted records `Alice` as committer — the author, not the configured
default. -/
theorem gm_C9_committer_counterexample :
    wsDirty.has_changes = Except.ok true
    ∧ committerNameOf
        (wsDirty.commit "m" (some ("Alice", "alice@example.com")) none 100 0)
        = some "Alice"
    ∧ wsDirty.config.DEFAULT_GIT_USER.1 = "Default"
    ∧ ("Alice" : String) ≠ "Default" :=
  ⟨by decide, rfl, rfl, by decide⟩

/-- C9 amended: on a dirty-workspace commit, an omitted author falls back to
the configured default identity, and an omitted committer falls back to the
author's signature — which is the configured default only when the author is
also omitted. -/
theorem gm_C9_signature_defaults (ws : Workspace) (msg : String)
    (a : Option (String × String)) (now : Nat) (off : Int)
    (h : ws.has_changes = Except.ok true) :
    ∃ cm ws', ws.commit msg a none now off = Except.ok (some cm, ws')
      ∧ cm.authorSig = make_signature (a.getD ws.config.DEFAULT_GIT_USER).1
          (a.getD ws.config.DEFAULT_GIT_USER).2 now off ws.config.DEFAULT_TZ_OFFSET
      ∧ cm.committerSig = cm.authorSig := by
  refine ⟨mkCommitObj ws msg a none now off, _,
    commit_dirty_eq ws msg a none now off h, ?_, rfl⟩
  cases a <;> rfl

/-- Witness for the amended C9 at `wsDirty` with an explicit author. -/
theorem gm_C9_signature_defaults_witness :
    wsDirty.has_changes = Except.ok true ∧
    ∃ cm ws', wsDirty.commit "m2" (some ("Alice", "alice@example.com")) none 100 0
        = Except.ok (some cm, ws')
      ∧ cm.authorSig = make_signature
          ((some ("Alice", "alice@example.com")).getD wsDirty.config.DEFAULT_GIT_USER).1
          ((some ("Alice", "alice@example.com")).getD wsDirty.config.DEFAULT_GIT_USER).2
          100 0 wsDirty.config.DEFAULT_TZ_OFFSET
      ∧ cm.committerSig = cm.authorSig :=
  ⟨by decide, gm_C9_signature_defaults wsDirty "m2"
    (some ("Alice", "alice@example.com")) 100 0 (by decide)⟩

theorem buildPathGo_fst_indep (segs : List String) (odb odb' : ODB)
    (base : Option GTree) (entries : List Entry) :
    (buildPathGo odb base segs entries).1 = (buildPathGo odb' base segs entries).1 := by
  induction segs generalizing odb odb' base with
  | nil => rfl
  | cons d rest ih =>
      simp only [buildPathGo, ODB.write]
      rw [ih odb odb' (subdirOf base d)]

/-- C6: `build_path` is deterministic under identical arguments: running it a
second time with the same path, entries and base tree — even on the store
state left by the first run — produces the same resulting object id. -/
theorem gm_C6_build_path_idempotent (odb : ODB) (path : String)
    (entries : List Entry) (base : Option GTree) :
    (build_path (build_path odb path entries base).2 path entries base).1
      = (build_path odb path entries base).1 := by
  unfold build_path
  exact buildPathGo_fst_indep (pathSegments path) _ odb base entries

/-- C7: writing the single blob entry `qux.txt` at path `/foo/bar/baz/` into
an absent base tree and describing the result yields exactly
`foo/\n  bar/\n    baz/\n      qux.txt`. -/
theorem gm_C7_round_trip :
    describe_tree (build_path [] "/foo/bar/baz/"
        [("qux.txt", GTree.blob "TEST CONTENT", Kind.blob)] none).1
      = "foo/\n  bar/\n    baz/\n      qux.txt" := by
  decide

end GitModel
